import Mathlib

/-!
Shallow embedding of `corpus_tools.py` (class `Corpus` and `RedditCorpus`):
a corpus-statistics precomputation stage producing a frequency-ranked
vocabulary and a sparse word-context cooccurrence matrix.

Tokenized regions are lists of strings.  Python machine details that the
source relies on are embedded explicitly:
- Python slice semantics (negative indices, clamping) as `pySlice`;
- `collections.Counter.most_common()` = stable sort of the keys, in
  insertion (first-encounter) order, by descending count; embedded as
  `List.insertionSort` (stable) over the first-encounter key list;
- `dict` / `defaultdict` insertion order, embedded as first-encounter
  ordered key lists (`dedupFirst`);
- exceptions (`KeyError`, `NameError`) as `Except String`.
-/

namespace CorpusTools

/-- `NULL_WORD = "<null>"` (corpus_tools.py line 11). -/
def NULL_WORD : String := "<null>"

/-- Normalize one bound of a Python slice `xs[a:b]` for a list of length
`n`: a negative index has `n` added, then the result is clamped to
`[0, n]`. -/
def pyIndex (n : Nat) (i : Int) : Nat :=
  if i < 0 then (i + n).toNat else min i.toNat n

/-- Python slice `xs[a:b]` (step 1): elements at positions
`pyIndex n a ≤ p < pyIndex n b`. -/
def pySlice {α : Type} (xs : List α) (a b : Int) : List α :=
  (xs.take (pyIndex xs.length b)).drop (pyIndex xs.length a)

/-- `Corpus.window(region, start_index, end_index)` (lines 76-88), with the
source's exact arithmetic:
`last_index = len(region) + 1`;
`front_nulls = repeat(NULL_WORD, abs(min(start_index, 0)))`;
`back_nulls = repeat(NULL_WORD, max(end_index - last_index, 0))`;
`selected_tokens = region[max(start_index, 0) : min(end_index, last_index) + 1]`. -/
def window (region : List String) (start_index end_index : Int) : List String :=
  let last_index : Int := (region.length : Int) + 1
  let front_nulls := List.replicate (min start_index 0).natAbs NULL_WORD
  let back_nulls := List.replicate (end_index - last_index).toNat NULL_WORD
  let selected_tokens := pySlice region (max start_index 0) (min end_index last_index + 1)
  front_nulls ++ selected_tokens ++ back_nulls

/-- `Corpus.region_context_windows(region)` (lines 90-96): for each focus
position `i`, the triple
`(window(region, i - left_size, i - 1), region[i], window(region, i + 1, i + right_size))`. -/
def region_context_windows (left_size right_size : Int) (region : List String) :
    List (List String × String × List String) :=
  region.enum.map (fun p =>
    let i : Int := (p.1 : Int)
    (window region (i - left_size) (i - 1), p.2, window region (i + 1) (i + right_size)))

/-- All `(focus word, context token)` pairs contributed by one region in
`fit` (line 42-43): for each window triple, the focus word paired with each
token of `chain(left_context, right_context)`. -/
def region_cooc_pairs (left_size right_size : Int) (region : List String) :
    List (String × String) :=
  (region_context_windows left_size right_size region).flatMap
    (fun t => (t.1 ++ t.2.2).map (fun y => (t.2.1, y)))

/-- All `(focus word, context token)` pairs accumulated by `fit` over the
whole corpus (lines 40-43). -/
def cooc_pairs (left_size right_size : Int) (regions : List (List String)) :
    List (String × String) :=
  regions.flatMap (region_cooc_pairs left_size right_size)

/-- The accumulated cooccurrence count mapping of `fit`:
`cooccurrence_counts[x][y]` as a function of the pair `(x, y)`
(NULL_WORD context entries are retained here, as in the source; they are
stripped only at matrix assembly). -/
def cooc_count (left_size right_size : Int) (regions : List (List String))
    (p : String × String) : Nat :=
  (cooc_pairs left_size right_size regions).count p

/-- Keys of a Python dict/Counter in insertion order: the first-encounter
sublist of distinct elements. `seen` carries the keys already emitted. -/
def dedupFirstAux (seen : List String) : List String → List String
  | [] => []
  | t :: ts => if t ∈ seen then dedupFirstAux seen ts else t :: dedupFirstAux (t :: seen) ts

/-- Distinct elements of a list in first-encounter order (Counter/dict key
insertion order). -/
def dedupFirst (ts : List String) : List String := dedupFirstAux [] ts

/-- `word_counts[t]` after the aggregation loop (lines 38, 40-41): total
occurrences of `t` over all regions. -/
def word_counts (regions : List (List String)) (t : String) : Nat :=
  regions.flatten.count t

/-- The keys of `word_counts` in insertion order: first-encounter order of
tokens during the single aggregation pass. -/
def encounter_order (regions : List (List String)) : List String :=
  dedupFirst regions.flatten

/-- `self._words = [t[0] for t in word_counts.most_common()]` (line 44).
`Counter.most_common()` is CPython's stable sort of the keys (insertion
order) by descending count; `List.insertionSort` with the non-strict
comparison is that stable sort. -/
def fit_words (regions : List (List String)) : List String :=
  List.insertionSort (fun a b => word_counts regions b ≤ word_counts regions a)
    (encounter_order regions)

/-- `self._word_index = {word: i for i, word in enumerate(self._words)}`
(line 45), as an association list. -/
def fit_word_index (regions : List (List String)) : List (String × Nat) :=
  (fit_words regions).enum.map (fun p => (p.2, p.1))

/-- `self._word_index[x]`: since `_words` has no duplicates the dict maps
each word to its position in `_words`. (On a key not in `_words` the dict
raises `KeyError`; `indexOf` returns the out-of-range value `length`,
which no claim relies on.) -/
def word_idx (regions : List (List String)) (w : String) : Nat :=
  (fit_words regions).indexOf w

/-- Keys `x` of `cooccurrence_counts` in insertion order: focus words in
order of first appearance as a focus. -/
def focus_keys (left_size right_size : Int) (regions : List (List String)) : List String :=
  dedupFirst ((cooc_pairs left_size right_size regions).map Prod.fst)

/-- Keys `y` of `cooccurrence_counts[x]` in insertion order. -/
def context_keys (left_size right_size : Int) (regions : List (List String))
    (x : String) : List String :=
  dedupFirst (((cooc_pairs left_size right_size regions).filter
    (fun p => p.1 == x)).map Prod.snd)

/-- The dict passed to `self._cooccurrence_matrix.update` (lines 47-51):
`{(word_index[x], word_index[y]): count for x, counts in
cooccurrence_counts.items() for y, count in counts.items() if y != NULL_WORD}`. -/
def fit_matrix_dict (left_size right_size : Int) (regions : List (List String)) :
    List ((Nat × Nat) × Nat) :=
  (focus_keys left_size right_size regions).flatMap (fun x =>
    ((context_keys left_size right_size regions x).filter (fun y => y != NULL_WORD)).map
      (fun y => ((word_idx regions x, word_idx regions y),
        cooc_count left_size right_size regions (x, y))))

/-- `self._cooccurrence_matrix` (lines 46-51): a `dok_matrix` of shape
`(len(self._words), len(self._words))` together with its nonzero entries.
Absent keys are zero (sparse semantics). -/
def fit_cooccurrence_matrix (left_size right_size : Int) (regions : List (List String)) :
    (Nat × Nat) × List ((Nat × Nat) × Nat) :=
  (((fit_words regions).length, (fit_words regions).length),
    fit_matrix_dict left_size right_size regions)

/-- The mutable state of a `Corpus` object.  `regions` stands for the
output of `tokenized_regions()` (the composition of the abstract
`extract_regions` and `tokenize` collaborators, held fixed for one
object); the three caches are `_words`, `_word_index`,
`_cooccurrence_matrix` (lines 27-29), `none` after `__init__`.
`fit_calls` counts how many times `fit()` has run, to state the
"exactly once / no recomputation" property. -/
structure CorpusState where
  left_size : Int
  right_size : Int
  regions : List (List String)
  words_cache : Option (List String)
  word_index_cache : Option (List (String × Nat))
  cooccurrence_matrix_cache : Option ((Nat × Nat) × List ((Nat × Nat) × Nat))
  fit_calls : Nat

/-- `Corpus.fit()` (lines 37-51): recomputes the three caches from the
regions and stores them. -/
def corpus_fit (c : CorpusState) : CorpusState :=
  { c with
    words_cache := some (fit_words c.regions),
    word_index_cache := some (fit_word_index c.regions),
    cooccurrence_matrix_cache :=
      some (fit_cooccurrence_matrix c.left_size c.right_size c.regions),
    fit_calls := c.fit_calls + 1 }

/-- `Corpus.is_fit()` (lines 53-58): `self._words is not None`. -/
def corpus_is_fit (c : CorpusState) : Bool := c.words_cache.isSome

/-- The `words` property (lines 102-106): fit on first access, then return
the cached list.  Returns the value and the post-access state. -/
def words_property (c : CorpusState) : List String × CorpusState :=
  let c' := if corpus_is_fit c then c else corpus_fit c
  (c'.words_cache.getD [], c')

/-- The `word_index` property (lines 108-112). -/
def word_index_property (c : CorpusState) : List (String × Nat) × CorpusState :=
  let c' := if corpus_is_fit c then c else corpus_fit c
  (c'.word_index_cache.getD [], c')

/-- The `cooccurrence_matrix` property (lines 114-118); note the source
guards on `self._cooccurrence_matrix is None`, not `is_fit()`. -/
def cooccurrence_matrix_property (c : CorpusState) :
    ((Nat × Nat) × List ((Nat × Nat) × Nat)) × CorpusState :=
  let c' := if c.cooccurrence_matrix_cache.isSome then c else corpus_fit c
  (c'.cooccurrence_matrix_cache.getD ((0, 0), []), c')

/-- The keyword arguments accepted by `Corpus.__init__` (lines 14-26). -/
structure Kwargs where
  size : Option Int
  left_size : Option Int
  right_size : Option Int

/-- `Corpus.__init__` window-size configuration (lines 20-26), returning
`(left_size, right_size)` or the `KeyError` raised when none of the three
keyword arguments is present.  The error is raised inside `__init__`
itself, before any other work, never deferred to `fit()`. -/
def corpus_init (kwargs : Kwargs) : Except String (Int × Int) :=
  match kwargs.size with
  | some s => Except.ok (s, s)
  | none =>
    if kwargs.left_size.isSome || kwargs.right_size.isSome then
      Except.ok (kwargs.left_size.getD 0, kwargs.right_size.getD 0)
    else
      Except.error "At least one of `size`, `left_size`, and `right_size` must be given"

/-- Result of a successful `RedditCorpus.__init__` (lines 121-133). -/
structure RedditCorpusState where
  sizes : Int × Int
  file_paths : List String

/-- `RedditCorpus.__init__(path)` (lines 122-133): it first runs
`super().__init__()` with NO keyword arguments, then resolves `path` into
`file_paths`.  The filesystem is abstracted as the two parameters
`is_dir` (`os.path.isdir(path)`) and `dir_listing` (`os.listdir(path)`). -/
def reddit_corpus_init (path : String) (is_dir : Bool) (dir_listing : List String) :
    Except String RedditCorpusState :=
  match corpus_init { size := none, left_size := none, right_size := none } with
  | Except.error msg => Except.error msg
  | Except.ok sizes =>
    Except.ok
      { sizes := sizes,
        file_paths :=
          if is_dir then
            (dir_listing.filter (fun p => ¬ p.startsWith ".")).map
              (fun name => path ++ "/" ++ name)
          else [path] }

/-- The names bound at module level in `corpus_tools.py`: the imports
(lines 1-9) and the top-level definitions (`NULL_WORD`, `Corpus`,
`RedditCorpus`). -/
def module_globals : List String :=
  ["repeat", "chain", "Counter", "defaultdict", "partial", "re", "os", "json",
   "nltk", "dok_matrix", "np", "NULL_WORD", "Corpus", "RedditCorpus"]

/-- Python name resolution inside a function body: a name resolves to a
local binding or a module-level global, otherwise a `NameError` is
raised. -/
def lookup_name (local_names : List String) (name : String) : Except String Unit :=
  if name ∈ local_names ∨ name ∈ module_globals then Except.ok ()
  else Except.error ("name " ++ name ++ " is not defined")

/-- Evaluating the body of the `context_windows` property (lines 98-100):
`(self.region_context_windows(region) for region in corpus.tokenized_regions())`.
Creating the generator expression eagerly evaluates its outer iterable
`corpus.tokenized_regions()`, so the name `corpus` is resolved at property
access; the only local name in scope is `self`. -/
def context_windows_access : Except String Unit :=
  lookup_name ["self"] "corpus"

/-! ## Auxiliary lemmas -/

theorem count_eq_of_perm {α : Type} [BEq α] {l₁ l₂ : List α} (h : l₁.Perm l₂) (a : α) :
    l₁.count a = l₂.count a :=
  h.countP_eq (· == a)

theorem mem_dedupFirstAux {x : String} : ∀ {seen ts : List String},
    x ∈ dedupFirstAux seen ts ↔ x ∈ ts ∧ x ∉ seen := by
  intro seen ts
  induction ts generalizing seen with
  | nil => simp [dedupFirstAux]
  | cons t ts ih =>
    by_cases ht : t ∈ seen
    · have hunf : dedupFirstAux seen (t :: ts) = dedupFirstAux seen ts := by
        simp [dedupFirstAux, ht]
      rw [hunf, ih]
      constructor
      · exact fun ⟨h1, h2⟩ => ⟨List.mem_cons_of_mem t h1, h2⟩
      · rintro ⟨h1, h2⟩
        rcases List.mem_cons.mp h1 with rfl | h1
        · exact absurd ht h2
        · exact ⟨h1, h2⟩
    · have hunf : dedupFirstAux seen (t :: ts) = t :: dedupFirstAux (t :: seen) ts := by
        simp [dedupFirstAux, ht]
      rw [hunf, List.mem_cons, ih]
      constructor
      · rintro (rfl | ⟨h1, h2⟩)
        · exact ⟨List.mem_cons_self x ts, ht⟩
        · exact ⟨List.mem_cons_of_mem t h1, fun hx => h2 (List.mem_cons_of_mem t hx)⟩
      · rintro ⟨h1, h2⟩
        rcases List.mem_cons.mp h1 with rfl | h1
        · exact Or.inl rfl
        · by_cases hxt : x = t
          · exact Or.inl hxt
          · refine Or.inr ⟨h1, fun hx => ?_⟩
            rcases List.mem_cons.mp hx with h | h
            · exact hxt h
            · exact h2 h

theorem nodup_dedupFirstAux : ∀ (seen ts : List String), (dedupFirstAux seen ts).Nodup := by
  intro seen ts
  induction ts generalizing seen with
  | nil => simp [dedupFirstAux]
  | cons t ts ih =>
    by_cases ht : t ∈ seen
    · have hunf : dedupFirstAux seen (t :: ts) = dedupFirstAux seen ts := by
        simp [dedupFirstAux, ht]
      rw [hunf]
      exact ih seen
    · have hunf : dedupFirstAux seen (t :: ts) = t :: dedupFirstAux (t :: seen) ts := by
        simp [dedupFirstAux, ht]
      rw [hunf, List.nodup_cons]
      exact ⟨fun hmem => (mem_dedupFirstAux.mp hmem).2 (List.mem_cons_self t seen),
        ih (t :: seen)⟩

theorem mem_dedupFirst {x : String} {ts : List String} : x ∈ dedupFirst ts ↔ x ∈ ts := by
  simp [dedupFirst, mem_dedupFirstAux]

theorem nodup_dedupFirst (ts : List String) : (dedupFirst ts).Nodup :=
  nodup_dedupFirstAux [] ts

theorem mem_of_mem_pySlice {α : Type} {xs : List α} {a b : Int} {z : α}
    (h : z ∈ pySlice xs a b) : z ∈ xs :=
  List.take_subset _ _ (List.drop_subset _ _ h)

theorem mem_window {region : List String} {s e : Int} {z : String}
    (h : z ∈ window region s e) : z ∈ region ∨ z = NULL_WORD := by
  simp only [window, List.mem_append] at h
  rcases h with (h | h) | h
  · exact Or.inr (List.eq_of_mem_replicate h)
  · exact Or.inl (mem_of_mem_pySlice h)
  · exact Or.inr (List.eq_of_mem_replicate h)

theorem mem_region_cooc_pairs {ls rs : Int} {region : List String} {q : String × String}
    (h : q ∈ region_cooc_pairs ls rs region) :
    q.1 ∈ region ∧ (q.2 ∈ region ∨ q.2 = NULL_WORD) := by
  simp only [region_cooc_pairs, List.mem_flatMap, List.mem_map] at h
  obtain ⟨t, ht, y, hy, rfl⟩ := h
  simp only [region_context_windows, List.mem_map] at ht
  obtain ⟨p, hp, rfl⟩ := ht
  have hfocus : p.2 ∈ region := by
    have : p.2 ∈ region.enum.map Prod.snd := List.mem_map_of_mem Prod.snd hp
    rwa [List.enum_map_snd] at this
  refine ⟨hfocus, ?_⟩
  rcases List.mem_append.mp hy with hy | hy
  · exact mem_window hy
  · exact mem_window hy

theorem mem_cooc_pairs {ls rs : Int} {regions : List (List String)} {q : String × String}
    (h : q ∈ cooc_pairs ls rs regions) :
    q.1 ∈ regions.flatten ∧ (q.2 ∈ regions.flatten ∨ q.2 = NULL_WORD) := by
  simp only [cooc_pairs, List.mem_flatMap] at h
  obtain ⟨region, hr, hq⟩ := h
  obtain ⟨h1, h2⟩ := mem_region_cooc_pairs hq
  refine ⟨List.mem_flatten.mpr ⟨region, hr, h1⟩, ?_⟩
  rcases h2 with h2 | h2
  · exact Or.inl (List.mem_flatten.mpr ⟨region, hr, h2⟩)
  · exact Or.inr h2

theorem mem_fit_words {regions : List (List String)} {t : String} :
    t ∈ fit_words regions ↔ t ∈ regions.flatten := by
  rw [fit_words, List.mem_insertionSort, encounter_order, mem_dedupFirst]

theorem nodup_fit_words (regions : List (List String)) : (fit_words regions).Nodup :=
  (List.perm_insertionSort _ _).nodup_iff.mpr (nodup_dedupFirst _)

/-! ## Claim theorems -/

/-- C1: the claim states the documented contract of
`window(region, start_index, end_index)`: a sequence of length
`end_index − start_index + 1` whose element at each position `p` from
`start_index` to `end_index` is `region[p]` when `0 ≤ p < len(region)` and
`NULL_WORD` otherwise.  The code violates this contract (and its own
docstring, which promises `NULL_WORD` padding whenever `end_index` exceeds
the last index): at `window(["a","b","c"], 2, 3)` it returns `["c"]` — of
length 1, not `3 − 2 + 1 = 2`, and with no `NULL_WORD` for position 3 —
because it bounds the right side with `len(region) + 1` instead of
`len(region)`. -/
theorem c1_window_contract_fails_at_right_edge :
    window ["a", "b", "c"] 2 3 = ["c"]
    ∧ window ["a", "b", "c"] 2 3 ≠ ["c", NULL_WORD]
    ∧ (window ["a", "b", "c"] 2 3).length ≠ 2 := by
  decide

/-- C2: the claim states that with `left_size = 1`, `right_size = 1` and
region `["a","b","c"]`, the context-window iterator yields
`(["<null>"], "a", ["b"])` at focus position 0 and
`(["b"], "c", ["<null>"])` at focus position 2.  The code satisfies the
position-0 triple but not the position-2 one: the right context at the
last position is `[]`, not `["<null>"]`, because of `window`'s
under-padding at the right edge (see C1). -/
theorem c2_region_context_windows_fails_at_last_position :
    region_context_windows 1 1 ["a", "b", "c"] =
      [(["<null>"], "a", ["b"]), (["a"], "b", ["c"]), (["b"], "c", [])]
    ∧ region_context_windows 1 1 ["a", "b", "c"] ≠
      [(["<null>"], "a", ["b"]), (["a"], "b", ["c"]), (["b"], "c", ["<null>"])] := by
  decide

/-- C8: `Corpus.window(["a","b","c"], -2, 1)` returns exactly
`["<null>", "<null>", "a", "b"]`. -/
theorem c8_window_left_padding :
    window ["a", "b", "c"] (-2) 1 = ["<null>", "<null>", "a", "b"] := by
  decide

/-- C9: for every path (and every state of the filesystem), constructing a
`RedditCorpus` raises the missing-window-size `KeyError`, because
`RedditCorpus.__init__` invokes `Corpus.__init__` with no keyword
arguments before doing anything else; a `RedditCorpus` can never be
successfully constructed. -/
theorem c9_reddit_corpus_never_constructs :
    ∀ (path : String) (is_dir : Bool) (dir_listing : List String),
      reddit_corpus_init path is_dir dir_listing =
        Except.error "At least one of `size`, `left_size`, and `right_size` must be given" := by
  intro path is_dir dir_listing
  rfl

/-- C10: every access to the `context_windows` property raises a
`NameError`: its body references the name `corpus`, which is neither a
local name (only `self` is) nor bound at module level, and the generator
expression evaluates `corpus.tokenized_regions()` eagerly at property
access. -/
theorem c10_context_windows_name_error :
    context_windows_access = Except.error "name corpus is not defined" := by
  rfl

/-- C7: `Corpus.__init__` raises its `KeyError` at construction (the
embedding `corpus_init` is the constructor itself, so the error is never
deferred to `fit()`) if and only if none of `size`, `left_size`,
`right_size` is supplied; supplying `size` sets both sides to that value;
supplying only one of `left_size`/`right_size` sets the other side to
`0`. -/
theorem c7_corpus_init_configuration (k : Kwargs) :
    ((∃ msg, corpus_init k = Except.error msg) ↔
      (k.size = none ∧ k.left_size = none ∧ k.right_size = none))
    ∧ (∀ s, k.size = some s → corpus_init k = Except.ok (s, s))
    ∧ (k.size = none → ∀ l, k.left_size = some l → k.right_size = none →
        corpus_init k = Except.ok (l, 0))
    ∧ (k.size = none → ∀ r, k.right_size = some r → k.left_size = none →
        corpus_init k = Except.ok (0, r)) := by
  obtain ⟨s, l, r⟩ := k
  cases s <;> cases l <;> cases r <;> simp [corpus_init]

/-- Witness for C7: supplying only `left_size = 2` constructs successfully
with `right_size = 0`. -/
theorem c7_corpus_init_configuration_witness :
    corpus_init { size := none, left_size := some 2, right_size := none } =
      Except.ok (2, 0) :=
  (c7_corpus_init_configuration
    { size := none, left_size := some 2, right_size := none }).2.2.1 rfl 2 rfl rfl

/-- C6: on an unfit Corpus (all caches `None`), accessing any of the
`words`, `word_index`, `cooccurrence_matrix` properties runs `fit()`
exactly once and returns the fit result; accessing any property again on
the resulting state returns the cached value with the state unchanged (no
recomputation); and running `fit()` twice yields vocabulary, index and
matrix identical to running it once. -/
theorem c6_lazy_fit_idempotence (c : CorpusState)
    (hw : c.words_cache = none) (hm : c.cooccurrence_matrix_cache = none) :
    (words_property c = (fit_words c.regions, corpus_fit c)
      ∧ word_index_property c = (fit_word_index c.regions, corpus_fit c)
      ∧ cooccurrence_matrix_property c
          = (fit_cooccurrence_matrix c.left_size c.right_size c.regions, corpus_fit c))
    ∧ (corpus_fit c).fit_calls = c.fit_calls + 1
    ∧ (words_property (corpus_fit c) = (fit_words c.regions, corpus_fit c)
      ∧ word_index_property (corpus_fit c) = (fit_word_index c.regions, corpus_fit c)
      ∧ cooccurrence_matrix_property (corpus_fit c)
          = (fit_cooccurrence_matrix c.left_size c.right_size c.regions, corpus_fit c))
    ∧ ((corpus_fit (corpus_fit c)).words_cache = (corpus_fit c).words_cache
      ∧ (corpus_fit (corpus_fit c)).word_index_cache = (corpus_fit c).word_index_cache
      ∧ (corpus_fit (corpus_fit c)).cooccurrence_matrix_cache
          = (corpus_fit c).cooccurrence_matrix_cache) := by
  simp [words_property, word_index_property, cooccurrence_matrix_property,
    corpus_is_fit, corpus_fit, hw, hm]

/-- Witness for C6: a concrete unfit corpus; one property access runs
`fit()` exactly once. -/
theorem c6_lazy_fit_idempotence_witness :
    (CorpusState.mk 1 1 [["a", "b"]] none none none 0).words_cache = none
    ∧ (CorpusState.mk 1 1 [["a", "b"]] none none none 0).cooccurrence_matrix_cache = none
    ∧ (corpus_fit (CorpusState.mk 1 1 [["a", "b"]] none none none 0)).fit_calls = 0 + 1 :=
  ⟨rfl, rfl,
    (c6_lazy_fit_idempotence (CorpusState.mk 1 1 [["a", "b"]] none none none 0) rfl rfl).2.1⟩

/-- C5: the `(focus, context)` count mapping accumulated by `fit()` is
invariant under permutation of the sequence of tokenized regions, and
fitting two sub-corpora separately and summing their count mappings
key-by-key equals fitting the concatenation once. -/
theorem c5_cooccurrence_counts_order_independent_additive (ls rs : Int)
    (r1 r2 : List (List String)) (h : r1.Perm r2) :
    (∀ p : String × String, cooc_count ls rs r1 p = cooc_count ls rs r2 p)
    ∧ (∀ (ra rb : List (List String)) (p : String × String),
        cooc_count ls rs (ra ++ rb) p = cooc_count ls rs ra p + cooc_count ls rs rb p) := by
  constructor
  · intro p
    exact count_eq_of_perm (List.Perm.flatMap_right (region_cooc_pairs ls rs) h) p
  · intro ra rb p
    simp only [cooc_count, cooc_pairs, List.flatMap_append, List.count_append]

/-- Witness for C5: swapping two concrete regions leaves the count of the
pair `("a", "b")` unchanged. -/
theorem c5_cooccurrence_counts_order_independent_additive_witness :
    ([["a", "b"], ["b"]] : List (List String)).Perm [["b"], ["a", "b"]]
    ∧ cooc_count 1 1 [["a", "b"], ["b"]] ("a", "b")
        = cooc_count 1 1 [["b"], ["a", "b"]] ("a", "b") :=
  ⟨List.Perm.swap _ _ _,
    (c5_cooccurrence_counts_order_independent_additive 1 1 [["a", "b"], ["b"]]
      [["b"], ["a", "b"]] (List.Perm.swap _ _ _)).1 ("a", "b")⟩

/-- C3: after `fit()`, the vocabulary is a duplicate-free enumeration of
exactly the observed tokens, ordered by descending total occurrence count
with ties keeping first-encounter order (any two tokens of equal count
that appear in first-encounter order also appear in that order in the
vocabulary); in particular for the single region
`["a","b","a","c","b","a"]` the vocabulary is `["a","b","c"]` and
`word_index` maps `a, b, c` to `0, 1, 2`. -/
theorem c3_vocabulary_ranking (regions : List (List String)) :
    (fit_words regions).Nodup
    ∧ (∀ t, t ∈ fit_words regions ↔ t ∈ regions.flatten)
    ∧ List.Sorted (fun a b => word_counts regions b ≤ word_counts regions a)
        (fit_words regions)
    ∧ (∀ x y, word_counts regions x = word_counts regions y →
        [x, y].Sublist (encounter_order regions) → [x, y].Sublist (fit_words regions))
    ∧ fit_words [["a", "b", "a", "c", "b", "a"]] = ["a", "b", "c"]
    ∧ (fit_word_index [["a", "b", "a", "c", "b", "a"]]).lookup "a" = some 0
    ∧ (fit_word_index [["a", "b", "a", "c", "b", "a"]]).lookup "b" = some 1
    ∧ (fit_word_index [["a", "b", "a", "c", "b", "a"]]).lookup "c" = some 2 := by
  refine ⟨nodup_fit_words regions, fun t => mem_fit_words, ?_, ?_,
    by decide, by decide, by decide, by decide⟩
  · haveI : IsTotal String (fun a b => word_counts regions b ≤ word_counts regions a) :=
      ⟨fun a b => le_total _ _⟩
    haveI : IsTrans String (fun a b => word_counts regions b ≤ word_counts regions a) :=
      ⟨fun a b c hab hbc => le_trans hbc hab⟩
    exact List.sorted_insertionSort _ _
  · intro x y hxy hsub
    exact List.pair_sublist_insertionSort (le_of_eq hxy.symm) hsub

/-- Witness for C3: the tie-break conjunct at a concrete corpus where
`"a"` and `"b"` have equal counts. -/
theorem c3_vocabulary_ranking_witness :
    word_counts [["a", "b"]] "a" = word_counts [["a", "b"]] "b"
    ∧ ["a", "b"].Sublist (encounter_order [["a", "b"]])
    ∧ ["a", "b"].Sublist (fit_words [["a", "b"]]) :=
  ⟨by decide, by decide,
    (c3_vocabulary_ranking [["a", "b"]]).2.2.2.1 "a" "b" (by decide) (by decide)⟩

/-- C4: assuming the tokenizer never emits `NULL_WORD`, after `fit()` the
sentinel has no vocabulary index (it is not in `_words`), the matrix
shape is exactly `V × V` where `V` is the number of distinct observed
tokens (`encounter_order` enumerates them without duplicates), and every
entry of the assembled matrix sits at `(word_index[x], word_index[y])` for
observed tokens `x, y` that are both different from `NULL_WORD` — the
sentinel is excluded as a context key at assembly, so no row or column
corresponds to it. -/
theorem c4_null_word_never_indexed (ls rs : Int) (regions : List (List String))
    (hclean : ∀ r ∈ regions, NULL_WORD ∉ r) :
    NULL_WORD ∉ fit_words regions
    ∧ (fit_cooccurrence_matrix ls rs regions).1
        = ((fit_words regions).length, (fit_words regions).length)
    ∧ (fit_words regions).length = (encounter_order regions).length
    ∧ (encounter_order regions).Nodup
    ∧ (∀ t, t ∈ encounter_order regions ↔ t ∈ regions.flatten)
    ∧ (∀ kv ∈ (fit_cooccurrence_matrix ls rs regions).2,
        ∃ x y, x ∈ regions.flatten ∧ y ∈ regions.flatten
          ∧ x ≠ NULL_WORD ∧ y ≠ NULL_WORD
          ∧ kv.1 = (word_idx regions x, word_idx regions y)
          ∧ kv.1.1 < (fit_words regions).length
          ∧ kv.1.2 < (fit_words regions).length) := by
  have hnull : NULL_WORD ∉ regions.flatten := by
    intro hmem
    obtain ⟨r, hr, hin⟩ := List.mem_flatten.mp hmem
    exact hclean r hr hin
  refine ⟨fun hmem => hnull (mem_fit_words.mp hmem), rfl,
    (List.perm_insertionSort _ _).length_eq, nodup_dedupFirst _,
    fun t => mem_dedupFirst, ?_⟩
  intro kv hkv
  simp only [fit_cooccurrence_matrix, fit_matrix_dict, List.mem_flatMap,
    List.mem_map, List.mem_filter] at hkv
  obtain ⟨x, hx, y, ⟨hy, hyne⟩, rfl⟩ := hkv
  have hyne' : y ≠ NULL_WORD := by simpa using hyne
  have hx1 : x ∈ regions.flatten := by
    obtain ⟨q, hq, rfl⟩ := List.mem_map.mp (mem_dedupFirst.mp hx)
    exact (mem_cooc_pairs hq).1
  have hy1 : y ∈ regions.flatten := by
    obtain ⟨q, hq, rfl⟩ := List.mem_map.mp (mem_dedupFirst.mp hy)
    have hq' : q ∈ cooc_pairs ls rs regions := (List.mem_filter.mp hq).1
    rcases (mem_cooc_pairs hq').2 with h | h
    · exact h
    · exact absurd h hyne'
  refine ⟨x, y, hx1, hy1, fun h => hnull (h ▸ hx1), hyne', rfl, ?_, ?_⟩
  · exact List.indexOf_lt_length.mpr (mem_fit_words.mpr hx1)
  · exact List.indexOf_lt_length.mpr (mem_fit_words.mpr hy1)

/-- Witness for C4: a concrete clean corpus; the sentinel gets no
vocabulary index. -/
theorem c4_null_word_never_indexed_witness :
    (∀ r ∈ [["a", "b"]], NULL_WORD ∉ r) ∧ NULL_WORD ∉ fit_words [["a", "b"]] :=
  ⟨by decide, (c4_null_word_never_indexed 1 1 [["a", "b"]] (by decide)).1⟩

end CorpusTools
